import Mathlib

/-!
Shallow embedding of the VertTracker API core (src/models.py, src/utils.py,
src/routes.py) and verification of its specification claims.

Timestamps are modelled as integers counting hours since an epoch (the finest
granularity the interfaces use: `timedelta(hours=utc_offset)` shifts by whole
hours and `func.date` truncates to calendar days); heights in meters and
weights in kilograms are rationals (the Python floats of the source, modelled
exactly).  JSON request values are modelled by the dynamic type
`PyVal`, and fallible Python evaluation (uncaught exceptions) by `Except` or
dedicated result constructors.
-/

namespace VertTracker

/-- Dynamically typed value as decoded from a JSON request body, as Python
sees it: a string, a float, an int, or None. -/
inductive PyVal where
  | pStr (s : String)
  | pFloat (q : ℚ)
  | pInt (n : ℤ)
  | pNone
deriving DecidableEq

/-- Python `isinstance(v, str) and lo <= len(v) <= hi`. -/
def isStrBetween (v : PyVal) (lo hi : ℕ) : Bool :=
  match v with
  | .pStr s => decide (lo ≤ s.length) && decide (s.length ≤ hi)
  | _ => false

/-- Python `isinstance(v, float) and v > 0`.  Note that a Python `int` is not
an instance of `float`. -/
def isPosFloat (v : PyVal) : Bool :=
  match v with
  | .pFloat q => decide (0 < q)
  | _ => false

def usernameMsg : String := "username must be a string from 1 to 20 characters long"

def passwordMsg : String := "password must be a string from 10 to 80 characters long"

def tipToeMsg : String := "tip-toe must be a positive floating point value"

/-- Embeds `utils.validate_register` (utils.py lines 37-57): three guard
clauses checked in order username, password, tip-toe height. -/
def validate_register (username password tip_toe_height : PyVal) : Option String :=
  if ¬ isStrBetween username 1 20 then some usernameMsg
  else if ¬ isStrBetween password 10 80 then some passwordMsg
  else if ¬ isPosFloat tip_toe_height then some tipToeMsg
  else none

/-- Spec-side predicate: the value is a string whose length lies in
`[lo, hi]`. -/
def IsStrLenBetween (v : PyVal) (lo hi : ℕ) : Prop :=
  ∃ s, v = PyVal.pStr s ∧ lo ≤ s.length ∧ s.length ≤ hi

/-- Spec-side predicate: the value is a float strictly greater than zero. -/
def IsPosPyFloat (v : PyVal) : Prop :=
  ∃ q : ℚ, v = PyVal.pFloat q ∧ 0 < q

/-- Digits-only part of Python `int(str)`: the character list must be nonempty
and consist of decimal digits; its value is read in base 10. -/
def pythonIntDigits (cs : List Char) : Option ℤ :=
  if cs ≠ [] ∧ cs.all (fun c => c.isDigit) then
    some (cs.foldl (fun acc c => acc * 10 + ((c.toNat - 48 : ℕ) : ℤ)) 0)
  else none

/-- Surrounding-whitespace stripping of Python `int(str)`. -/
def pyStrip (cs : List Char) : List Char :=
  ((cs.dropWhile (fun c => c.isWhitespace)).reverse.dropWhile
    (fun c => c.isWhitespace)).reverse

/-- Python `int(s)` on a string: surrounding whitespace is stripped, an
optional single leading sign is allowed, the rest must be decimal digits.
`none` models the `ValueError` raised on any other input. -/
def pythonInt (s : String) : Option ℤ :=
  match pyStrip s.toList with
  | '+' :: rest => pythonIntDigits rest
  | '-' :: rest => (pythonIntDigits rest).map (fun n => -n)
  | cs => pythonIntDigits cs

/-- Python `str.isdigit` (restricted to ASCII): nonempty and all digits. -/
def pyIsdigit (s : String) : Bool :=
  decide (s.length ≠ 0) && s.toList.all (fun c => c.isDigit)

/-- The set `{str(n) for n in range(-12, 15)}` from utils.py line 162: the
canonical decimal spellings of the integers -12..14. -/
def validOffsetStrings : List String :=
  (List.range 27).map (fun k => toString ((k : ℤ) - 12))

def avgVariantMsg : String := "variant must be specified when using the 'avg' aggregation"

def aggregationMsg : String := "aggregation must be either 'max' (maximum) or 'avg' (average)"

def orderMsg : String := "order-by must be either 'date', 'weight', or 'height'"

def heightUnitMsg : String := "height-unit must be either 'm', 'cm', or 'in'"

def weightUnitMsg : String := "weight-unit must be either 'kg' or 'lbs'"

def offsetMsg : String := "utc-offset must be an integer from -12 to 14"

def yearsMsg : String := "years must be a positive integer"

/-- Embeds `utils.validate_query_params` (utils.py lines 132-166): the seven
guard clauses in source order.  `utc_offset` is accepted exactly when the raw
string is a member of `{str(n) for n in range(-12, 15)}`. -/
def validate_query_params (variant aggregation : Option String)
    (height_unit weight_unit utc_offset order : String)
    (timespan : Option String) : Option String :=
  if aggregation = some "avg" ∧ variant = none then some avgVariantMsg
  else if ¬ (aggregation = some "max" ∨ aggregation = some "avg" ∨ aggregation = none) then
    some aggregationMsg
  else if ¬ (order = "date" ∨ order = "weight" ∨ order = "height") then some orderMsg
  else if ¬ (height_unit = "m" ∨ height_unit = "cm" ∨ height_unit = "in") then
    some heightUnitMsg
  else if ¬ (weight_unit = "kg" ∨ weight_unit = "lbs") then some weightUnitMsg
  else if ¬ utc_offset ∈ validOffsetStrings then some offsetMsg
  else if (match timespan with
    | some t => !pyIsdigit t || t == "0"
    | none => false) then some yearsMsg
  else none

/-! Data model (models.py).  Timestamps are integers counting hours since an
epoch; `day` models `func.date`, the calendar day of a timestamp. -/

/-- Embeds the `User` model (models.py lines 21-44); the hashed password is
irrelevant to every claim and omitted. -/
structure User where
  id : ℤ
  tip_toe_height : ℚ
deriving DecidableEq

/-- Embeds the `VerticalJumpRecord` model (models.py lines 47-72). -/
structure VerticalJumpRecord where
  height : ℚ
  timestamp : ℤ
  variant : String
  weight : Option ℚ
  note : Option String
  user_id : ℤ
deriving DecidableEq

/-- State of the record store: the `user` and `vertical_jump_record` tables. -/
structure DB where
  users : List User
  records : List VerticalJumpRecord
deriving DecidableEq

/-- Calendar day of a timestamp (`func.date`): floor division of the
hour-valued instant by 24. -/
def day (t : ℤ) : ℤ :=
  Int.fdiv t 24

/-- Embeds models.py line 66: the `default=` argument of the `timestamp`
column is the value of `datetime.now(timezone.utc)` evaluated once, when the
module is loaded, and reused for every subsequent insert. -/
def timestamp_column_default (module_load_time : ℤ) : ℤ :=
  module_load_time

/-- Timestamp stored by the record-jump operation (routes.py lines 113-119),
which supplies no explicit timestamp: the column default applies, whatever the
actual creation time is. -/
def stored_timestamp (module_load_time _creation_time : ℤ) : ℤ :=
  timestamp_column_default module_load_time

/-- Embeds routes.py line 111: `9.80665 / 8 * time ** 2 + user.tip_toe_height`
(the Physics Calculator of spec section 4.2). -/
def compute_height (time tip_toe_height : ℚ) : ℚ :=
  9.80665 / 8 * time ^ 2 + tip_toe_height

/-! Query machinery shared by the Query Builder and the route handlers. -/

/-- A row of the SELECT lists built in utils.py lines 192-207 and routes.py
lines 145-160: columns (date, height, variant, weight, note), where `height`
is the aggregated value when an aggregation is present (the second of the two
columns labelled `height` wins the label).  `user_id` records which stored
record the row's bare columns came from; it is not a selected column and is
carried only so that ownership of a returned row can be stated. -/
structure QueryRow where
  date : ℤ
  height : ℚ
  variant : String
  weight : Option ℚ
  note : Option String
  user_id : ℤ
deriving DecidableEq

def recordToRow (r : VerticalJumpRecord) : QueryRow :=
  ⟨r.timestamp, r.height, r.variant, r.weight, r.note, r.user_id⟩

/-- Insert keeping earlier-inserted equal keys first (stable). -/
def insertSorted {α : Type} (le : α → α → Bool) (x : α) : List α → List α
  | [] => [x]
  | y :: ys => if le y x then y :: insertSorted le x ys else x :: y :: ys

/-- Stable insertion sort, modelling SQL `ORDER BY` (ascending); ties keep
storage order, which the spec leaves arbitrary. -/
def insertionSort {α : Type} (le : α → α → Bool) : List α → List α
  | [] => []
  | x :: xs => insertSorted le x (insertionSort le xs)

/-- SQL ascending order on a nullable column: NULLs sort first. -/
def optLe : Option ℚ → Option ℚ → Bool
  | none, _ => true
  | some _, none => false
  | some x, some y => decide (x ≤ y)

/-- Ordering key of utils.py lines 214-219 and routes.py lines 171-176:
`date`, `weight`, or (otherwise) `height`. -/
def rowLe (order : String) (a b : QueryRow) : Bool :=
  if order = "date" then decide (a.date ≤ b.date)
  else if order = "weight" then optLe a.weight b.weight
  else decide (a.height ≤ b.height)

def sortRowsBy (order : String) (rows : List QueryRow) : List QueryRow :=
  insertionSort (rowLe order) rows

/-- Row of the group attaining the maximal height, scanning left to right and
keeping the first row attaining the maximum (SQLite takes the bare columns of
a `max()` aggregate from such a row). -/
def maxRow (rs : List VerticalJumpRecord) : Option VerticalJumpRecord :=
  rs.foldl (fun acc r =>
    match acc with
    | none => some r
    | some m => if m.height < r.height then some r else some m) none

def sumHeights (rs : List VerticalJumpRecord) : ℚ :=
  rs.foldl (fun a r => a + r.height) 0

/-- `GROUP BY func.date(timestamp)` with aggregate `max` or `avg` over the
height column.  Groups appear in order of first appearance of their day.  For
`max` the bare columns come from the row attaining the maximum (SQLite's
bare-column rule); for `avg` the representative row is implementation-defined
(spec section 9) and modelled as the last row of the group. -/
def groupByDay (aggregation : String) (rs : List VerticalJumpRecord) : List QueryRow :=
  ((rs.map (fun r => day r.timestamp)).dedup).filterMap (fun d =>
    let g := rs.filter (fun r => day r.timestamp = d)
    if aggregation = "avg" then
      g.getLast?.map (fun rep =>
        ⟨rep.timestamp, sumHeights g / (g.length : ℚ), rep.variant, rep.weight,
         rep.note, rep.user_id⟩)
    else
      (maxRow g).map (fun rep =>
        ⟨rep.timestamp, rep.height, rep.variant, rep.weight, rep.note, rep.user_id⟩))

/-- The records owned by a user:
`filter(VerticalJumpRecord.user_id == user_id)`. -/
def userRecords (db : DB) (user_id : ℤ) : List VerticalJumpRecord :=
  db.records.filter (fun r => r.user_id = user_id)

/-- Embeds `utils.build_and_filter_query` (utils.py lines 169-221) composed
with `.all()`: WHERE on the record's own `user_id` and optional variant,
GROUP BY day with the selected aggregate when one is given, then ORDER BY the
requested key. -/
def build_and_filter_query (db : DB) (user_id : ℤ) (order : String)
    (variant : Option String) (aggregation : Option String) : List QueryRow :=
  let base0 := userRecords db user_id
  let base := match variant with
    | some v => base0.filter (fun r => r.variant = v)
    | none => base0
  let rows := match aggregation with
    | some "max" => groupByDay "max" base
    | some "avg" => groupByDay "avg" base
    | _ => base.map recordToRow
  sortRowsBy order rows

/-- The `(timestamp, height)` pairs that `utils.get_improvement` indexes as
`jumps[i][0]` and `jumps[i][1]`: tuple positions 0 and 1 of
`build_and_filter_query(db, user_id, 'date', None, 'max').all()`. -/
def dailyMaxSamples (db : DB) (user_id : ℤ) : List (ℤ × ℚ) :=
  (build_and_filter_query db user_id "date" none (some "max")).map
    (fun r => (r.date, r.height))

/-- Index of the first sample whose timestamp lies strictly inside the
window, i.e. the first `i` with `jumps[i][0] > cutoff`, as scanned by the
loop of utils.py lines 114-121. -/
def firstAfterIdx (cutoff : ℤ) : List (ℤ × ℚ) → Option ℕ
  | [] => none
  | j :: rest =>
      if cutoff < j.1 then some 0 else (firstAfterIdx cutoff rest).map (fun n => n + 1)

/-- Embeds `utils.get_improvement` (utils.py lines 90-129).  `now` stands for
`datetime.now()`; the window is `timedelta(days=timespan * 31)`, i.e.
`timespan * 31 * 24` hours.  Returns
`none` (Python `None`) when fewer than two daily-max samples exist or when the
scan finds no sample inside the window; otherwise the difference between the
last sample's height and the baseline sample's height, scaled.  The baseline
index is `i - 1` for the first in-window index `i > 0`, and `0` when
`i = 0` (the loop's `prev_index` stays at its initial value). -/
def get_improvement (db : DB) (user_id : ℤ) (now : ℤ) (timespan : ℕ)
    (conversion_factor : ℚ) : Option ℚ :=
  let jumps := dailyMaxSamples db user_id
  if jumps.length ≤ 1 then none
  else
    match firstAfterIdx (now - (timespan * 31 * 24 : ℤ)) jumps with
    | none => none
    | some i =>
        some (((jumps.getD (jumps.length - 1) (0, 0)).2 -
               (jumps.getD (i - 1) (0, 0)).2) * conversion_factor)

/-! The GET /api/jumps handler (routes.py lines 124-207). -/

/-- Height-unit conversion table of routes.py line 180. -/
def height_conversion (u : String) : Option ℚ :=
  List.lookup u [("m", 1), ("cm", 100), ("in", 39.3701)]

/-- Weight-unit conversion table of routes.py line 181. -/
def weight_conversion (u : String) : Option ℚ :=
  List.lookup u [("kg", 1), ("lbs", 2.20462)]

/-- The records reaching the SELECT of the jumps handler.  Routes.py line 166
filters on `User.id == user_id`: since the query's FROM clause is the record
table, this joins the user table as a cross product and constrains only the
user row, not the records' own `user_id`.  Hence: one copy of the (variant-
filtered) record table per user row matching `user_id`. -/
def get_jumps_base (db : DB) (user_id : ℤ) (variant : Option String) :
    List VerticalJumpRecord :=
  (db.users.filter (fun u => u.id = user_id)).flatMap (fun _ =>
    match variant with
    | some v => db.records.filter (fun r => r.variant = v)
    | none => db.records)

/-- The ordered row sequence produced by the jumps handler's query
(routes.py lines 143-176), for `aggregation` in `{some "max", some "avg",
none}` and `order` in `{date, weight, height}` (the handler rejects other
values before the query runs). -/
def get_jumps_query (db : DB) (user_id : ℤ) (variant aggregation : Option String)
    (order : String) : List QueryRow :=
  let base := get_jumps_base db user_id variant
  let rows := match aggregation with
    | some a => groupByDay a base
    | none => base.map recordToRow
  sortRowsBy order rows

/-- A serialized item of the jumps response (routes.py lines 198-204).  The
`date` field stands for the `strftime`-formatted calendar day of the
offset-shifted timestamp. -/
structure RenderedJump where
  date : ℤ
  height : ℚ
  variant : String
  weight : ℚ
  note : Option String
deriving DecidableEq

/-- Outcome of a request to the jumps handler. -/
inductive JumpsResult where
  | body (status : ℕ) (msg : String)
  | rows (items : List RenderedJump)
  | py_exception (msg : String)
deriving DecidableEq

/-- The serialization loop of routes.py lines 196-205.  `jump.weight` may be
NULL (None); multiplying it by the conversion factor then raises `TypeError`,
modelled by the error branch. -/
def renderRows (rows : List QueryRow) (hcf wcf : ℚ) (off : ℤ) :
    Except String (List RenderedJump) :=
  rows.mapM (fun j =>
    match j.weight with
    | some w =>
        Except.ok ⟨day (j.date + off), j.height * hcf, j.variant,
                   w * wcf, j.note⟩
    | none => Except.error "TypeError: unsupported operand type for *")

/-- Embeds the `get_jumps` handler (routes.py lines 124-207).  The raw
`utc-offset` query parameter is converted with `int()` on line 138, before any
validation; a non-numeric string therefore raises an uncaught `ValueError`.
The avg-without-variant check on line 142 returns its message without a status
code, so Flask responds 200.  The malformed height-unit and weight-unit
returns on lines 184 and 189 pass a set literal to `jsonify`, which raises
`TypeError`; the lookups themselves never fail for the units of the conversion
tables. -/
def get_jumps (db : DB) (user_id : ℤ) (variant aggregation : Option String)
    (height_unit weight_unit utc_offset_raw order : String) : JumpsResult :=
  match pythonInt utc_offset_raw with
  | none => .py_exception "ValueError: invalid literal for int() with base 10"
  | some utc_offset =>
    if aggregation = some "avg" ∧ variant = none then .body 200 avgVariantMsg
    else if ¬ (aggregation = some "avg" ∨ aggregation = some "max" ∨ aggregation = none) then
      .body 400 aggregationMsg
    else if ¬ (order = "date" ∨ order = "weight" ∨ order = "height") then
      .body 400 orderMsg
    else
      match height_conversion height_unit with
      | none => .py_exception "TypeError: Object of type set is not JSON serializable"
      | some hcf =>
        match weight_conversion weight_unit with
        | none => .py_exception "TypeError: Object of type set is not JSON serializable"
        | some wcf =>
          if ¬ (-12 ≤ utc_offset ∧ utc_offset ≤ 14) then
            .body 400 "utt-offset must be an integer from -12 to 14"
          else
            match renderRows (get_jumps_query db user_id variant aggregation order)
                hcf wcf utc_offset with
            | .ok items => .rows items
            | .error e => .py_exception e

/-! The GET /summary handler (routes.py lines 269-337). -/

/-- Serialized summary response body (routes.py lines 322-337). -/
structure JumpSummary where
  num_records : ℕ
  num_days : ℕ
  highest_jump_height : ℚ
  highest_jump_date : Option ℤ
  last_jump_height : ℚ
  last_jump_date : Option ℤ
  improvement_6 : Option ℚ
  improvement_12 : Option ℚ
  improvement_24 : Option ℚ
deriving DecidableEq

/-- Outcome of a request to the summary handler. -/
inductive SummaryResult where
  | ok (s : JumpSummary)
  | py_exception (msg : String)
deriving DecidableEq

/-- Python multiplication of a possibly-None value by a float: `None * cf`
raises `TypeError` (routes.py lines 327 and 330 when the user has no
records). -/
def optMulFloat (x : Option ℚ) (cf : ℚ) : Except String ℚ :=
  match x with
  | some v => Except.ok (v * cf)
  | none => Except.error "TypeError: unsupported operand type for *: NoneType and float"

/-- Embeds the `get_summary` handler (routes.py lines 269-337), registered at
`/summary`.  When the user has records, the best height, its day, and the
most recent daily-max row are read off the store (the source's `.one()` /
`.first()` row-tuple handling is modelled as yielding the scalar); with zero
records all three are None, and serializing `None * conversion_factor`
raises `TypeError`.  An unknown height-unit passes a set literal to `jsonify`
(routes.py line 318), raising `TypeError` as well. -/
def get_summary (db : DB) (user_id : ℤ) (now : ℤ) (height_unit : String) :
    SummaryResult :=
  let rs := userRecords db user_id
  let num_jumps := rs.length
  let num_days := ((rs.map (fun r => day r.timestamp)).dedup).length
  let highest_jump : Option ℚ := (maxRow rs).map (fun r => r.height)
  let highest_jump_date : Option ℤ := (maxRow rs).map (fun r => day r.timestamp)
  let dailyRows := build_and_filter_query db user_id "date" none (some "max")
  let last_jump : Option ℚ := dailyRows.getLast?.map (fun r => r.height)
  let last_jump_date : Option ℤ := dailyRows.getLast?.map (fun r => day r.date)
  match height_conversion height_unit with
  | none => .py_exception "TypeError: Object of type set is not JSON serializable"
  | some cf =>
    match optMulFloat highest_jump cf with
    | .error e => .py_exception e
    | .ok hh =>
      match optMulFloat last_jump cf with
      | .error e => .py_exception e
      | .ok lh =>
        .ok ⟨num_jumps, num_days, hh, highest_jump_date, lh, last_jump_date,
             get_improvement db user_id now 6 cf,
             get_improvement db user_id now 12 cf,
             get_improvement db user_id now 24 cf⟩

end VertTracker

namespace VertTracker

theorem isStrBetween_iff (v : PyVal) (lo hi : ℕ) :
    isStrBetween v lo hi = true ↔ IsStrLenBetween v lo hi := by
  cases v <;> simp [isStrBetween, IsStrLenBetween]

theorem isPosFloat_iff (v : PyVal) :
    isPosFloat v = true ↔ IsPosPyFloat v := by
  cases v <;> simp [isPosFloat, IsPosPyFloat]

theorem mem_validOffsetStrings_iff (s : String) :
    s ∈ validOffsetStrings ↔ ∃ n : ℤ, -12 ≤ n ∧ n ≤ 14 ∧ s = toString n := by
  constructor
  · intro hmem
    obtain ⟨k, hk, rfl⟩ :=
      (@List.mem_map ℕ String s (fun k => toString ((k : ℤ) - 12))
        (List.range 27)).mp hmem
    have hk27 : k < 27 := List.mem_range.mp hk
    exact ⟨(k : ℤ) - 12, by omega, by omega, rfl⟩
  · rintro ⟨n, h1, h2, rfl⟩
    refine (@List.mem_map ℕ String (toString n) (fun k => toString ((k : ℤ) - 12))
      (List.range 27)).mpr ⟨(n + 12).toNat, List.mem_range.mpr (by omega), ?_⟩
    congr 1
    omega

theorem firstAfterIdx_eq_none_iff (c : ℤ) (l : List (ℤ × ℚ)) :
    firstAfterIdx c l = none ↔ ∀ j ∈ l, j.1 ≤ c := by
  induction l with
  | nil => simp [firstAfterIdx]
  | cons x xs ih =>
    by_cases hx : c < x.1
    · simp only [firstAfterIdx, if_pos hx, List.forall_mem_cons]
      constructor
      · intro h; exact Option.noConfusion h
      · rintro ⟨h1, -⟩; exact absurd h1 (not_le.mpr hx)
    · simp only [firstAfterIdx, if_neg hx, Option.map_eq_none', ih, List.forall_mem_cons]
      constructor
      · intro h; exact ⟨not_lt.mp hx, h⟩
      · rintro ⟨-, h⟩; exact h

theorem firstAfterIdx_eq_some (c : ℤ) (l : List (ℤ × ℚ)) (i : ℕ)
    (hi : i < l.length) (hwin : c < (l.getD i (0, 0)).1)
    (hbefore : (l.take i).all (fun j => decide (j.1 ≤ c)) = true) :
    firstAfterIdx c l = some i := by
  induction l generalizing i with
  | nil => simp at hi
  | cons x xs ih =>
    cases i with
    | zero =>
      simp only [List.getD_cons_zero] at hwin
      simp [firstAfterIdx, hwin]
    | succ n =>
      have hx : x.1 ≤ c := by
        simp only [List.take_succ_cons, List.all_cons, Bool.and_eq_true,
          decide_eq_true_eq] at hbefore
        exact hbefore.1
      have hrec := ih n (by simpa using hi)
        (by simpa only [List.getD_cons_succ] using hwin)
        (by simpa only [List.take_succ_cons, List.all_cons, Bool.and_eq_true] using
          And.right (by simpa only [List.take_succ_cons, List.all_cons,
            Bool.and_eq_true] using hbefore))
      simp [firstAfterIdx, not_lt.mpr hx, hrec]

/-- C1: the spec says every row returned by GET /api/jumps belongs to the
queried user, and utils.build_and_filter_query does scope to the record's
own `user_id`; but the handler's inline query (routes.py line 166) filters
`User.id == user_id`, a cross join that leaves the records unconstrained.
With users 1 and 2 and a single record owned by user 2, the listing queried
as user 1 returns user 2's record. -/
theorem c1_cross_user_record_leak :
    (get_jumps_query ⟨[⟨1, 3/10⟩, ⟨2, 3/10⟩], [⟨6/10, 0, "MAX", some 70, none, 2⟩]⟩ 1
        none none "date").map QueryRow.user_id = [2] ∧
    get_jumps ⟨[⟨1, 3/10⟩, ⟨2, 3/10⟩], [⟨6/10, 0, "MAX", some 70, none, 2⟩]⟩ 1
        none none "m" "kg" "0" "date" = JumpsResult.rows [⟨0, 6/10, "MAX", 70, none⟩] ∧
    (2 : ℤ) ≠ 1 ∧
    build_and_filter_query ⟨[⟨1, 3/10⟩, ⟨2, 3/10⟩], [⟨6/10, 0, "MAX", some 70, none, 2⟩]⟩ 1
        "date" none none = [] := by
  refine ⟨by decide, ?_, by decide, by decide⟩
  have e : get_jumps ⟨[⟨1, 3/10⟩, ⟨2, 3/10⟩], [⟨6/10, 0, "MAX", some 70, none, 2⟩]⟩ 1
      none none "m" "kg" "0" "date" =
      JumpsResult.rows [⟨0, 6/10 * 1, "MAX", 70 * 1, none⟩] := rfl
  rw [e]
  norm_num

/-- C2: the claim says a record created without an explicit timestamp stores
the UTC instant of its creation.  models.py line 66 evaluates
`datetime.now(timezone.utc)` once at module load and installs the resulting
constant as the column default, so every record stores the module-load
instant: a record created at time 1 (module loaded at time 0) stores 0, and
two records created at different times store the same value. -/
theorem c2_timestamp_fixed_at_module_load :
    stored_timestamp 0 1 = 0 ∧ stored_timestamp 0 1 ≠ 1 ∧
    stored_timestamp 0 2 = stored_timestamp 0 1 := by
  exact ⟨rfl, by decide, rfl⟩

/-- C3: the claim says a GET /api/jumps request with aggregation 'avg' and no
variant yields HTTP 400.  The handler's check (routes.py line 142) returns
`jsonify({...})` without a status code, so the response status is Flask's
default 200. -/
theorem c3_avg_without_variant_status_200 :
    get_jumps ⟨[⟨1, 3/10⟩], []⟩ 1 none (some "avg") "m" "kg" "0" "date" =
      JumpsResult.body 200 avgVariantMsg ∧ (200 : ℕ) ≠ 400 := by
  exact ⟨by decide, by decide⟩

/-- C4: for a trailing window of 6, 12 or 24 months, at least two daily-max
samples, and `i` the first index of the date-ascending daily-max sequence
whose timestamp is strictly greater than now minus the window, the
improvement equals (height of the last sample) minus (height of the sample at
index `i - 1`, i.e. the one immediately preceding the first in-window sample,
or the first sample itself when `i = 0`), times the conversion factor. -/
theorem c4_improvement_formula (db : DB) (user_id : ℤ) (now : ℤ) (cf : ℚ)
    (timespan : ℕ)
    (hts : timespan = 6 ∨ timespan = 12 ∨ timespan = 24)
    (i : ℕ) (hi : i < (dailyMaxSamples db user_id).length)
    (hlen : 2 ≤ (dailyMaxSamples db user_id).length)
    (hwin : now - (timespan * 31 * 24 : ℤ) <
      ((dailyMaxSamples db user_id).getD i (0, 0)).1)
    (hbefore : ((dailyMaxSamples db user_id).take i).all
      (fun j => decide (j.1 ≤ now - (timespan * 31 * 24 : ℤ))) = true) :
    get_improvement db user_id now timespan cf =
      some ((((dailyMaxSamples db user_id).getD
                ((dailyMaxSamples db user_id).length - 1) (0, 0)).2 -
             ((dailyMaxSamples db user_id).getD (i - 1) (0, 0)).2) * cf) := by
  have hf := firstAfterIdx_eq_some (now - (timespan * 31 * 24 : ℤ))
    (dailyMaxSamples db user_id) i hi hwin hbefore
  have hn : ¬ (dailyMaxSamples db user_id).length ≤ 1 := by omega
  simp [get_improvement, hf, hn]

/-- Witness for C4: two daily-max samples at hour 16800 (calendar day 700,
height 1) and hour 21600 (day 900, height 12/10), now = hour 24000 (day
1000), 6-month window (186 days = 4464 hours, cutoff 19536): the first
in-window index is 1, the baseline is the sample at index 0, and the
improvement is (12/10 - 1) * 1. -/
theorem c4_improvement_formula_witness :
    get_improvement ⟨[⟨1, 3/10⟩], [⟨1, 16800, "MAX", some 70, none, 1⟩,
        ⟨12/10, 21600, "MAX", some 70, none, 1⟩]⟩ 1 24000 6 1 =
      some ((((dailyMaxSamples ⟨[⟨1, 3/10⟩], [⟨1, 16800, "MAX", some 70, none, 1⟩,
                ⟨12/10, 21600, "MAX", some 70, none, 1⟩]⟩ 1).getD
                ((dailyMaxSamples ⟨[⟨1, 3/10⟩], [⟨1, 16800, "MAX", some 70, none, 1⟩,
                  ⟨12/10, 21600, "MAX", some 70, none, 1⟩]⟩ 1).length - 1) (0, 0)).2 -
             ((dailyMaxSamples ⟨[⟨1, 3/10⟩], [⟨1, 16800, "MAX", some 70, none, 1⟩,
                ⟨12/10, 21600, "MAX", some 70, none, 1⟩]⟩ 1).getD (1 - 1) (0, 0)).2) * 1) :=
  c4_improvement_formula _ 1 24000 1 6 (Or.inl rfl) 1 (by decide) (by decide)
    (by decide) (by decide)

/-- C5: the improvement computation returns the explicit absent value `none`
(never an error) exactly when fewer than two daily-max samples exist or when
no sample's timestamp lies strictly inside the trailing window; in every
other case it returns a numeric value. -/
theorem c5_improvement_none_iff (db : DB) (user_id : ℤ) (now : ℤ) (timespan : ℕ)
    (cf : ℚ) :
    get_improvement db user_id now timespan cf = none ↔
      (dailyMaxSamples db user_id).length < 2 ∨
      ∀ j ∈ dailyMaxSamples db user_id, j.1 ≤ now - (timespan * 31 * 24 : ℤ) := by
  by_cases h : (dailyMaxSamples db user_id).length ≤ 1
  · have e : get_improvement db user_id now timespan cf = none := by
      simp [get_improvement, h]
    rw [e]
    exact iff_of_true rfl (Or.inl (by omega))
  · rcases hfa : firstAfterIdx (now - (timespan * 31 * 24 : ℤ))
        (dailyMaxSamples db user_id) with _ | i
    · have e : get_improvement db user_id now timespan cf = none := by
        simp [get_improvement, h, hfa]
      rw [e]
      exact iff_of_true rfl (Or.inr ((firstAfterIdx_eq_none_iff _ _).mp hfa))
    · have hnall : ¬ ∀ j ∈ dailyMaxSamples db user_id,
          j.1 ≤ now - (timespan * 31 * 24 : ℤ) := by
        intro hall
        rw [(firstAfterIdx_eq_none_iff _ _).mpr hall] at hfa
        exact Option.noConfusion hfa
      have e : get_improvement db user_id now timespan cf =
          some ((((dailyMaxSamples db user_id).getD
                    ((dailyMaxSamples db user_id).length - 1) (0, 0)).2 -
                 ((dailyMaxSamples db user_id).getD (i - 1) (0, 0)).2) * cf) := by
        simp [get_improvement, h, hfa]
      rw [e]
      exact iff_of_false (fun hh => Option.noConfusion hh)
        (not_or.mpr ⟨by omega, hnall⟩)

/-- C6: the stored jump height of the record-jump operation equals
`9.80665 / 8 * t ^ 2 + h` for hang-time `t` and tip-toe height `h`, and for
fixed `h` it is strictly increasing in `t` over positive hang-times. -/
theorem c6_compute_height_formula_monotone (t h t1 t2 : ℚ)
    (ht1 : 0 < t1) (h12 : t1 < t2) :
    compute_height t h = 9.80665 / 8 * t ^ 2 + h ∧
    compute_height t1 h < compute_height t2 h := by
  refine ⟨rfl, ?_⟩
  unfold compute_height
  have hsq : t1 ^ 2 < t2 ^ 2 := by nlinarith
  have hg : (0 : ℚ) < 9.80665 / 8 := by norm_num
  nlinarith

/-- Witness for C6 at t = 1, h = 0 against t1 = 1 < t2 = 2. -/
theorem c6_compute_height_formula_monotone_witness :
    compute_height 1 0 = 9.80665 / 8 * 1 ^ 2 + 0 ∧
    compute_height 1 0 < compute_height 2 0 :=
  c6_compute_height_formula_monotone 1 0 1 2 (by norm_num) (by norm_num)

/-- C7: the claim says GET /api/summary returns 200 for every existing user,
including one with zero records.  For a user with zero records the handler
multiplies the absent highest jump (None) by the conversion factor
(routes.py line 327), raising an uncaught TypeError instead of answering
200. -/
theorem c7_summary_zero_records_type_error :
    get_summary ⟨[⟨1, 3/10⟩], []⟩ 1 0 "m" =
      SummaryResult.py_exception
        "TypeError: unsupported operand type for *: NoneType and float" ∧
    ∀ s, get_summary ⟨[⟨1, 3/10⟩], []⟩ 1 0 "m" ≠ SummaryResult.ok s := by
  have e : get_summary ⟨[⟨1, 3/10⟩], []⟩ 1 0 "m" =
      SummaryResult.py_exception
        "TypeError: unsupported operand type for *: NoneType and float" := by decide
  exact ⟨e, fun s h => SummaryResult.noConfusion (e ▸ h)⟩

/-- C8 counterexample: the claim admits every positive real tip-toe height,
positive integers included; but `validate_register` requires
`isinstance(tip_toe_height, float)`, so the integer 1 (a valid JSON positive
integer) is rejected with the height error although username and password
are valid. -/
theorem c8_integer_tip_toe_rejected :
    validate_register (PyVal.pStr "abc") (PyVal.pStr "1234567890") (PyVal.pInt 1) =
      some tipToeMsg := by decide

/-- C8 amended: registration validation returns no error exactly when
username is a string of length 1-20, password a string of length 10-80, and
tip-toe height a float strictly greater than 0 (integer values are
rejected); when several fields are invalid the reported message follows the
priority username, then password, then height. -/
theorem c8_register_validation_amended (u p t : PyVal) :
    (validate_register u p t = none ↔
      IsStrLenBetween u 1 20 ∧ IsStrLenBetween p 10 80 ∧ IsPosPyFloat t) ∧
    (¬ IsStrLenBetween u 1 20 → validate_register u p t = some usernameMsg) ∧
    (IsStrLenBetween u 1 20 → ¬ IsStrLenBetween p 10 80 →
      validate_register u p t = some passwordMsg) ∧
    (IsStrLenBetween u 1 20 → IsStrLenBetween p 10 80 → ¬ IsPosPyFloat t →
      validate_register u p t = some tipToeMsg) := by
  have hu := isStrBetween_iff u 1 20
  have hp := isStrBetween_iff p 10 80
  have ht := isPosFloat_iff t
  by_cases h1 : isStrBetween u 1 20 = true <;>
    by_cases h2 : isStrBetween p 10 80 = true <;>
      by_cases h3 : isPosFloat t = true <;>
        simp_all [validate_register]

/-- Witness for C8 amended: a fully valid registration input is accepted. -/
theorem c8_register_validation_amended_witness :
    validate_register (PyVal.pStr "abc") (PyVal.pStr "1234567890")
      (PyVal.pFloat (3 / 10)) = none :=
  (c8_register_validation_amended _ _ _).1.mpr
    ⟨⟨"abc", rfl, by decide, by decide⟩, ⟨"1234567890", rfl, by decide, by decide⟩,
     ⟨3 / 10, rfl, by norm_num⟩⟩

/-- C9 counterexample: the string "+5" parses under Python `int()` to 5,
which lies in [-12, 14], yet query-parameter validation rejects it (with all
other parameters valid), because the check is membership in the literal set
`{str(n) for n in range(-12, 15)}`. -/
theorem c9_plus_prefixed_offset_rejected :
    pythonInt "+5" = some 5 ∧ (-12 : ℤ) ≤ 5 ∧ (5 : ℤ) ≤ 14 ∧
    validate_query_params none none "m" "kg" "+5" "date" none = some offsetMsg := by
  exact ⟨by decide, by decide, by decide, by decide⟩

/-- C9 amended: with every other parameter valid, the utc-offset string is
accepted if and only if it is exactly the canonical decimal representation
`str(n)` of some integer n in [-12, 14]; spellings with a leading '+',
leading zeros or whitespace are rejected even though they parse in range. -/
theorem c9_utc_offset_canonical_iff (s : String) :
    validate_query_params none none "m" "kg" s "date" none = none ↔
      ∃ n : ℤ, -12 ≤ n ∧ n ≤ 14 ∧ s = toString n := by
  rw [← mem_validOffsetStrings_iff]
  by_cases hm : s ∈ validOffsetStrings
  · simp [validate_query_params, hm]
  · simp [validate_query_params, hm]

/-- C10: GET /api/jumps converts its utc-offset parameter with `int()` on
routes.py line 138, before any validation; for the non-numeric string "abc"
the handler raises an uncaught ValueError and produces no structured 400
response (in particular not the later range-check's 400). -/
theorem c10_nonnumeric_utc_offset_uncaught :
    get_jumps ⟨[⟨1, 3/10⟩], []⟩ 1 none none "m" "kg" "abc" "date" =
      JumpsResult.py_exception "ValueError: invalid literal for int() with base 10" ∧
    ∀ st m, get_jumps ⟨[⟨1, 3/10⟩], []⟩ 1 none none "m" "kg" "abc" "date" ≠
      JumpsResult.body st m := by
  have e : get_jumps ⟨[⟨1, 3/10⟩], []⟩ 1 none none "m" "kg" "abc" "date" =
      JumpsResult.py_exception "ValueError: invalid literal for int() with base 10" := by
    decide
  exact ⟨e, fun st m h => JumpsResult.noConfusion (e ▸ h)⟩

end VertTracker
